import Mathlib

/-!
# Verification of the CV/job-description similarity scorer

Shallow embedding of the similarity-scoring component of the
AI-Powered Job Application Assistant repository:

* `app/utils/evaluation/cv_matcher.py` — `get_stopwords`, `preprocess_text`,
  `compute_similarity_score`;
* `language/supported_languages.py` — `SUPPORTED_LANGUAGES`, `get_language_name`;
* `app/routes.py` — the `/evaluate_cv_match` endpoint body.

External collaborators (the NLTK stopword corpus, the Universal Sentence
Encoder embedding model, the OpenAI call, document text extraction) are
modelled as explicit function parameters.  Python floats are modelled as
real numbers; Python strings as Lean `String` over their character lists
(ASCII-faithful: `str.lower` and the whitespace class are modelled on the
ASCII fragment).
-/

namespace CvMatcher

/-- The whitespace characters of Python's `str.split()` / `str.strip()`
(the ASCII fragment: space, tab, newline, carriage return, vertical tab,
form feed). -/
def pyIsSpace (c : Char) : Bool :=
  c = ' ' || c = '\t' || c = '\n' || c = '\r' || c = '\x0b' || c = '\x0c'

/-- Chunks of a character list between whitespace characters, empty chunks
included; helper for the model of Python `str.split()`. -/
def splitWs (l : List Char) : List (List Char) :=
  l.foldr
    (fun c acc =>
      match acc with
      | [] => [[]]
      | w :: ws => if pyIsSpace c then [] :: w :: ws else (c :: w) :: ws)
    [[]]

/-- Model of Python `text.split()` (no separator argument): split on runs of
whitespace and drop the empty chunks, so the result is the list of maximal
whitespace-free non-empty words. -/
def pySplit (s : String) : List String :=
  ((splitWs s.data).filter (· ≠ [])).map String.mk

/-- Model of Python `sep.join(words)`. -/
def pyJoin (sep : String) (ws : List String) : String :=
  match ws with
  | [] => ""
  | [w] => w
  | w :: rest => w ++ sep ++ pyJoin sep rest

/-- Model of Python `s.strip()`: remove leading and trailing whitespace. -/
def pyStrip (s : String) : String :=
  String.mk (((s.data.dropWhile pyIsSpace).reverse.dropWhile pyIsSpace).reverse)

/-- Model of Python `str.lower()` on one character (ASCII fragment). -/
def pyLowerChar (c : Char) : Char :=
  if 'A' ≤ c ∧ c ≤ 'Z' then Char.ofNat (c.toNat + 32) else c

/-- Model of Python `s.lower()` (ASCII fragment). -/
def pyLower (s : String) : String :=
  String.mk (s.data.map pyLowerChar)

/-- `get_stopwords` from `cv_matcher.py`.  The NLTK stopword corpus is the
parameter `corpus`: `corpus language = some ws` models
`language in stopwords.fileids()` with `stopwords.words(language) = ws`,
and `corpus language = none` models a language with no stopword list.
The `LookupError` branch of the original re-downloads the same corpus and
repeats the identical lookup, so it does not change the value computed. -/
def get_stopwords (corpus : String → Option (List String)) (language : String) :
    List String :=
  match corpus language with
  | some ws => ws
  | none => []

/-- `preprocess_text` from `cv_matcher.py`: drop every word whose
lowercased form is a stopword, rejoin the survivors with single spaces. -/
def preprocess_text (corpus : String → Option (List String))
    (text : String) (language : String) : String :=
  let stop_words := get_stopwords corpus language
  let words := pySplit text
  let filtered_words := words.filter (fun word => decide (pyLower word ∉ stop_words))
  pyJoin " " filtered_words

/-- The cleaned text as the specification words it, independently of the
stopword provider: "split on whitespace into tokens, drop tokens whose
lowercased form is in the stopword set, rejoin surviving tokens with single
spaces, preserving original order and original casing of retained tokens". -/
def specCleanedText (stopwordSet : List String) (text : String) : String :=
  pyJoin " " ((pySplit text).filter (fun tok => decide (pyLower tok ∉ stopwordSet)))

/-- `SUPPORTED_LANGUAGES` from `language/supported_languages.py`:
the dictionary mapping language codes to display names. -/
def SUPPORTED_LANGUAGES : List (String × String) :=
  [("en", "English"), ("tr", "Turkish"), ("de", "German"), ("fr", "French"),
   ("es", "Spanish"), ("it", "Italian"), ("nl", "Dutch")]

/-- Python `language in SUPPORTED_LANGUAGES`: key membership in the dict. -/
def isSupportedLanguage (code : String) : Bool :=
  SUPPORTED_LANGUAGES.any (fun p => p.1 = code)

/-- `get_language_name` from `language/supported_languages.py`:
`SUPPORTED_LANGUAGES.get(language_code, None)`. -/
def get_language_name (language_code : String) : Option String :=
  (SUPPORTED_LANGUAGES.find? (fun p => p.1 = language_code)).map (·.2)

/-- Dot product of two vectors, `numpy`-style over equal-length rows;
`List.zipWith` truncates to the shorter list, which is only exercised at
equal lengths since the embedding model has fixed output dimensionality. -/
def dotL (x y : List ℝ) : ℝ := (List.zipWith (· * ·) x y).sum

/-- Euclidean (L2) norm of a vector. -/
noncomputable def norm2 (x : List ℝ) : ℝ := Real.sqrt (dotL x x)

/-- `sklearn.preprocessing.normalize` replaces a zero row norm by `1`
before dividing; this is the norm actually divided by. -/
noncomputable def normFix (n : ℝ) : ℝ := if n = 0 then 1 else n

/-- `sklearn.metrics.pairwise.cosine_similarity(X, Y)[0][0]` for single-row
inputs: each row is divided by its (zero-fixed) L2 norm and the rows are
dot-multiplied, i.e. `⟨x,y⟩ / (fix ‖x‖ * fix ‖y‖)`. -/
noncomputable def cosineSimilarity (x y : List ℝ) : ℝ :=
  dotL x y / (normFix (norm2 x) * normFix (norm2 y))

/-- The exception values the scorer can raise: `ValueError(msg)` for the
two explicit input checks, and the generic `Exception(msg)` produced by the
catch-all re-raise around the embedding computation. -/
inductive PyError where
  | valueError (msg : String)
  | exception (msg : String)
deriving DecidableEq

/-- `compute_similarity_score` from `cv_matcher.py`.

The embedding model (`embed`, the Universal Sentence Encoder) is a
parameter; `embed t = Except.error e` models the embedding call raising an
exception with message `e`.  The result pairs the Python return/raise
outcome with the trace of texts actually passed to the embedding model, in
call order — the function's only side effects.  The catch-all
`except Exception` wraps any inner failure message as
`"Error computing similarity score: " ++ e`; `cosine_similarity` itself is
total on the fixed-dimension vectors the provider returns. -/
noncomputable def computeSimilarityScore (corpus : String → Option (List String))
    (embed : String → Except String (List ℝ))
    (job_description cv_text : String) (language : String) :
    Except PyError ℝ × List String :=
  if pyStrip job_description = "" ∨ pyStrip cv_text = "" then
    (.error (.valueError "Job description and CV text cannot be empty."), [])
  else if ¬ (isSupportedLanguage language = true) then
    (.error (.valueError ("Unsupported language: " ++ language)), [])
  else
    let job_clean := preprocess_text corpus job_description language
    let cv_clean := preprocess_text corpus cv_text language
    match embed job_clean with
    | .error e =>
        (.error (.exception ("Error computing similarity score: " ++ e)), [job_clean])
    | .ok job_vector =>
        match embed cv_clean with
        | .error e =>
            (.error (.exception ("Error computing similarity score: " ++ e)),
             [job_clean, cv_clean])
        | .ok cv_vector =>
            (.ok (cosineSimilarity job_vector cv_vector), [job_clean, cv_clean])

/-- The responses the `/evaluate_cv_match` handler in `app/routes.py` can
produce: 400 for a missing CV file / job description, 400 for an
unsupported language, 200 with the rounded score and the AI evaluation,
and the catch-all 500. -/
inductive HttpResponse where
  | badRequestMissing
  | badRequestUnsupported
  | okMatch (similarity_score : ℝ) (evaluation : String)
  | internalError

/-- Python `round(x, 2)`.  Modelled with round-half-away ties
(`Int.round`); CPython uses banker's rounding on exact ties, which no
claim here exercises. -/
noncomputable def pyRound2 (x : ℝ) : ℝ := (round (x * 100) : ℤ) / 100

/-- The body of the `/evaluate_cv_match` endpoint (`app/routes.py`).

Collaborators as parameters: `corpus`/`embed` as for the scorer;
`openaiEval jd cv lang` is `evaluate_cv_with_openai` (an error models the
call raising); `extractText` is the outcome of saving the upload and
running `extract_text` on it.  `formJobDescription`/`formLanguage` are the
form fields (`none` = absent; `request.form.get` with `"en"` default for
the language), `cvFile` the uploaded file.  Python's
`if not cv_file or not job_description` treats an empty job-description
string as missing.  Any exception from extraction, the scorer, or the
OpenAI call reaches the catch-all and becomes the 500 response. -/
noncomputable def evaluate_cv_match_endpoint (corpus : String → Option (List String))
    (embed : String → Except String (List ℝ))
    (openaiEval : String → String → String → Except String String)
    (formJobDescription : Option String) (formLanguage : Option String)
    (cvFile : Option Unit) (extractText : Except String String) : HttpResponse :=
  let language := pyLower (formLanguage.getD "en")
  match cvFile, formJobDescription with
  | none, _ => .badRequestMissing
  | some _, none => .badRequestMissing
  | some _, some job_description =>
    if job_description = "" then .badRequestMissing
    else
      match extractText with
      | .error _ => .internalError
      | .ok cv_text =>
        match (computeSimilarityScore corpus embed job_description cv_text language).1 with
        | .error _ => .internalError
        | .ok similarity_score =>
          match get_language_name language with
          | none => .badRequestUnsupported
          | some language_name =>
            match openaiEval job_description cv_text language_name with
            | .error _ => .internalError
            | .ok evaluation => .okMatch (pyRound2 similarity_score) evaluation

/-! ## Properties of the split/join model -/

theorem splitWs_cons (c : Char) (cs : List Char) :
    splitWs (c :: cs) =
      match splitWs cs with
      | [] => [[]]
      | w :: ws => if pyIsSpace c then [] :: w :: ws else (c :: w) :: ws := rfl

theorem splitWs_ne_nil (l : List Char) : splitWs l ≠ [] := by
  cases l with
  | nil => simp [splitWs]
  | cons c cs =>
    rw [splitWs_cons]
    cases h : splitWs cs with
    | nil => simp
    | cons w ws =>
      by_cases hc : pyIsSpace c <;> simp [hc]

theorem splitWs_cons_eq (c : Char) (cs : List Char) (w : List Char)
    (ws : List (List Char)) (h : splitWs cs = w :: ws) :
    splitWs (c :: cs) =
      if pyIsSpace c then [] :: w :: ws else (c :: w) :: ws := by
  rw [splitWs_cons, h]

theorem mem_splitWs_not_space (l : List Char) :
    ∀ w ∈ splitWs l, ∀ c ∈ w, pyIsSpace c = false := by
  induction l with
  | nil =>
    intro w hw
    simp [splitWs] at hw
    simp [hw]
  | cons c cs ih =>
    intro w hw
    obtain ⟨hd, tl, hcs⟩ : ∃ hd tl, splitWs cs = hd :: tl := by
      cases h : splitWs cs with
      | nil => exact absurd h (splitWs_ne_nil cs)
      | cons hd tl => exact ⟨hd, tl, rfl⟩
    rw [splitWs_cons_eq c cs hd tl hcs] at hw
    by_cases hc : pyIsSpace c
    · rw [if_pos hc, List.mem_cons] at hw
      rcases hw with hw | hw
      · simp [hw]
      · exact ih w (hcs ▸ hw)
    · rw [if_neg hc, List.mem_cons] at hw
      rcases hw with hw | hw
      · subst hw
        intro a ha
        rw [List.mem_cons] at ha
        rcases ha with ha | ha
        · subst ha; exact Bool.eq_false_iff.mpr hc
        · exact ih hd (hcs ▸ List.mem_cons_self hd tl) a ha
      · exact ih w (hcs ▸ List.mem_cons_of_mem hd hw)

theorem splitWs_word_append (w : List Char) (hw : ∀ c ∈ w, pyIsSpace c = false) :
    ∀ l hd tl, splitWs l = hd :: tl → splitWs (w ++ l) = (w ++ hd) :: tl := by
  induction w with
  | nil => intro l hd tl h; simpa using h
  | cons c w' ih =>
    intro l hd tl h
    have hc : pyIsSpace c = false := hw c (List.mem_cons_self c w')
    have hw' : ∀ a ∈ w', pyIsSpace a = false :=
      fun a ha => hw a (List.mem_cons_of_mem c ha)
    have := splitWs_cons_eq c (w' ++ l) (w' ++ hd) tl (ih hw' l hd tl h)
    rw [List.cons_append, this, if_neg (by simp [hc])]
    simp

/-- List-of-characters form of space-joining; mirrors `pyJoin " "` at the
`String.data` level. -/
def charJoin : List (List Char) → List Char
  | [] => []
  | [w] => w
  | w :: rest => w ++ ' ' :: charJoin rest

theorem data_pyJoin (ws : List String) :
    (pyJoin " " ws).data = charJoin (ws.map String.data) := by
  match ws with
  | [] => rfl
  | [w] => rfl
  | w :: x :: rest =>
    show (w ++ " " ++ pyJoin " " (x :: rest)).data = _
    rw [String.data_append, String.data_append, data_pyJoin (x :: rest)]
    show w.data ++ " ".data ++ charJoin (x.data :: rest.map String.data)
        = w.data ++ ' ' :: charJoin (x.data :: rest.map String.data)
    rw [List.append_assoc]
    rfl

theorem splitWs_charJoin (ws : List (List Char))
    (hne : ∀ w ∈ ws, w ≠ [])
    (hns : ∀ w ∈ ws, ∀ c ∈ w, pyIsSpace c = false) :
    (splitWs (charJoin ws)).filter (· ≠ []) = ws := by
  match ws with
  | [] => simp [charJoin, splitWs]
  | [w] =>
    have h1 : splitWs (w ++ ([] : List Char)) = (w ++ []) :: [] :=
      splitWs_word_append w (hns w (by simp)) [] [] [] (by simp [splitWs])
    rw [List.append_nil] at h1
    show (splitWs w).filter (· ≠ []) = [w]
    rw [h1]
    simp [hne w (by simp)]
  | w :: x :: rest =>
    obtain ⟨hd, tl, hrest⟩ : ∃ hd tl, splitWs (charJoin (x :: rest)) = hd :: tl := by
      cases h : splitWs (charJoin (x :: rest)) with
      | nil => exact absurd h (splitWs_ne_nil _)
      | cons hd tl => exact ⟨hd, tl, rfl⟩
    have hsp : splitWs (' ' :: charJoin (x :: rest)) = [] :: hd :: tl := by
      rw [splitWs_cons_eq _ _ hd tl hrest, if_pos (by simp [pyIsSpace])]
    have hfull : splitWs (w ++ ' ' :: charJoin (x :: rest)) = (w ++ []) :: hd :: tl :=
      splitWs_word_append w (hns w (by simp)) _ [] (hd :: tl) hsp
    rw [List.append_nil] at hfull
    have hih : (splitWs (charJoin (x :: rest))).filter (· ≠ []) = x :: rest :=
      splitWs_charJoin (x :: rest)
        (fun a ha => hne a (List.mem_cons_of_mem w ha))
        (fun a ha => hns a (List.mem_cons_of_mem w ha))
    show (splitWs (w ++ ' ' :: charJoin (x :: rest))).filter (· ≠ []) = w :: x :: rest
    rw [hfull]
    rw [hrest] at hih
    have : ([] :: hd :: tl).filter (· ≠ ([] : List Char)) = x :: rest := by
      simpa using hih
    calc ((w :: hd :: tl).filter (· ≠ []))
        = w :: ((hd :: tl).filter (· ≠ [])) := by
          simp [List.filter_cons, hne w (by simp)]
      _ = w :: x :: rest := by
          have h2 : ((hd :: tl).filter (· ≠ ([] : List Char))) = x :: rest := by
            simpa using hih
          rw [h2]

theorem pySplit_tokens (s : String) :
    ∀ t ∈ pySplit s, t.data ≠ [] ∧ ∀ c ∈ t.data, pyIsSpace c = false := by
  intro t ht
  unfold pySplit at ht
  obtain ⟨w, hw, rfl⟩ := List.mem_map.mp ht
  have hw' := List.mem_filter.mp hw
  refine ⟨by simpa using hw'.2, ?_⟩
  exact mem_splitWs_not_space s.data w hw'.1

theorem pySplit_pyJoin (ws : List String)
    (hne : ∀ w ∈ ws, w.data ≠ [])
    (hns : ∀ w ∈ ws, ∀ c ∈ w.data, pyIsSpace c = false) :
    pySplit (pyJoin " " ws) = ws := by
  unfold pySplit
  rw [data_pyJoin]
  rw [splitWs_charJoin (ws.map String.data)
    (by intro w hw; obtain ⟨a, ha, rfl⟩ := List.mem_map.mp hw; exact hne a ha)
    (by intro w hw; obtain ⟨a, ha, rfl⟩ := List.mem_map.mp hw; exact hns a ha)]
  rw [List.map_map]
  have : (String.mk ∘ String.data) = id := by
    funext s; rfl
  rw [this, List.map_id]

/-! ## Properties of the dot product and cosine similarity -/

theorem dotL_comm (x y : List ℝ) : dotL x y = dotL y x := by
  unfold dotL
  rw [List.zipWith_comm_of_comm (· * ·) mul_comm]

theorem dotL_self_nonneg (x : List ℝ) : 0 ≤ dotL x x := by
  induction x with
  | nil => simp [dotL]
  | cons a t ih =>
    have h : dotL (a :: t) (a :: t) = a * a + dotL t t := rfl
    rw [h]
    nlinarith [mul_self_nonneg a]

theorem dotL_self_eq_zero (x : List ℝ) (h : dotL x x = 0) : ∀ a ∈ x, a = 0 := by
  induction x with
  | nil => simp
  | cons a t ih =>
    have hc : dotL (a :: t) (a :: t) = a * a + dotL t t := rfl
    rw [hc] at h
    have ht := dotL_self_nonneg t
    have ha2 := mul_self_nonneg a
    have ha : a * a = 0 := by linarith
    have htt : dotL t t = 0 := by linarith
    intro b hb
    rw [List.mem_cons] at hb
    rcases hb with hb | hb
    · subst hb; exact mul_self_eq_zero.mp ha
    · exact ih htt b hb

theorem dotL_zero_left (x : List ℝ) (h : ∀ a ∈ x, a = 0) :
    ∀ y, dotL x y = 0 := by
  induction x with
  | nil => intro y; cases y <;> simp [dotL]
  | cons a t ih =>
    intro y
    cases y with
    | nil => simp [dotL]
    | cons b u =>
      have hc : dotL (a :: t) (b :: u) = a * b + dotL t u := rfl
      rw [hc, h a (List.mem_cons_self a t),
        ih (fun c hc => h c (List.mem_cons_of_mem a hc)) u]
      ring

/-- Cauchy–Schwarz for the truncating list dot product. -/
theorem dotL_sq_le (x : List ℝ) : ∀ y, (dotL x y) ^ 2 ≤ dotL x x * dotL y y := by
  induction x with
  | nil =>
    intro y
    have h : dotL ([] : List ℝ) y = 0 := by cases y <;> rfl
    have h2 : dotL ([] : List ℝ) [] = 0 := rfl
    rw [h, h2]
    have := dotL_self_nonneg y
    nlinarith
  | cons a x' ih =>
    intro y
    cases y with
    | nil =>
      have h : dotL (a :: x') [] = 0 := rfl
      have h2 : dotL ([] : List ℝ) [] = 0 := rfl
      rw [h, h2]
      have := dotL_self_nonneg (a :: x')
      nlinarith
    | cons b y' =>
      have h1 := ih y'
      have hx := dotL_self_nonneg x'
      have hy := dotL_self_nonneg y'
      have hd : dotL (a :: x') (b :: y') = a * b + dotL x' y' := rfl
      have hdx : dotL (a :: x') (a :: x') = a * a + dotL x' x' := rfl
      have hdy : dotL (b :: y') (b :: y') = b * b + dotL y' y' := rfl
      rw [hd, hdx, hdy]
      rcases eq_or_lt_of_le hx with hx0 | hx0
      · have hS2 : (dotL x' y') ^ 2 ≤ 0 := by
          calc (dotL x' y') ^ 2 ≤ dotL x' x' * dotL y' y' := h1
            _ = 0 := by rw [← hx0]; ring
        have hS : dotL x' y' = 0 := by
          have := sq_nonneg (dotL x' y')
          exact sq_eq_zero_iff.mp (le_antisymm hS2 this)
        rw [hS, ← hx0]
        nlinarith [mul_nonneg (mul_self_nonneg a) hy]
      · nlinarith [sq_nonneg (a * dotL x' y' - b * dotL x' x'),
          mul_nonneg (add_nonneg (mul_self_nonneg a) hx)
            (by nlinarith : (0 : ℝ) ≤ dotL x' x' * dotL y' y' - (dotL x' y') ^ 2),
          hx0]

theorem abs_dotL_le (x y : List ℝ) : |dotL x y| ≤ norm2 x * norm2 y := by
  unfold norm2
  have h := dotL_sq_le x y
  rw [← Real.sqrt_sq_eq_abs, ← Real.sqrt_mul (dotL_self_nonneg x)]
  exact Real.sqrt_le_sqrt h

theorem norm2_eq_zero_iff (x : List ℝ) : norm2 x = 0 ↔ dotL x x = 0 := by
  unfold norm2
  constructor
  · intro h
    exact le_antisymm (Real.sqrt_eq_zero'.mp h) (dotL_self_nonneg x)
  · intro h
    rw [h, Real.sqrt_zero]

theorem normFix_pos (x : List ℝ) : 0 < normFix (norm2 x) := by
  unfold normFix
  split
  · exact one_pos
  · rename_i h
    exact lt_of_le_of_ne (Real.sqrt_nonneg _) (Ne.symm h)

theorem cosineSimilarity_comm (x y : List ℝ) :
    cosineSimilarity x y = cosineSimilarity y x := by
  unfold cosineSimilarity
  rw [dotL_comm x y, mul_comm]

theorem cosineSimilarity_zero_left (x y : List ℝ) (h : ∀ a ∈ x, a = 0) :
    cosineSimilarity x y = 0 := by
  unfold cosineSimilarity
  rw [dotL_zero_left x h y, zero_div]

theorem abs_cosineSimilarity_le_one (x y : List ℝ) : |cosineSimilarity x y| ≤ 1 := by
  by_cases hx : norm2 x = 0
  · have h0 : cosineSimilarity x y = 0 :=
      cosineSimilarity_zero_left x y
        (dotL_self_eq_zero x ((norm2_eq_zero_iff x).mp hx))
    rw [h0]; simp
  · by_cases hy : norm2 y = 0
    · have h0 : cosineSimilarity x y = 0 := by
        rw [cosineSimilarity_comm]
        exact cosineSimilarity_zero_left y x
          (dotL_self_eq_zero y ((norm2_eq_zero_iff y).mp hy))
      rw [h0]; simp
    · have hxpos : 0 < norm2 x :=
        lt_of_le_of_ne (Real.sqrt_nonneg _) (Ne.symm hx)
      have hypos : 0 < norm2 y :=
        lt_of_le_of_ne (Real.sqrt_nonneg _) (Ne.symm hy)
      unfold cosineSimilarity normFix
      rw [if_neg hx, if_neg hy, abs_div, abs_of_pos (mul_pos hxpos hypos)]
      rw [div_le_one (mul_pos hxpos hypos)]
      exact abs_dotL_le x y

theorem cosineSimilarity_nonneg (x y : List ℝ) (h : 0 ≤ dotL x y) :
    0 ≤ cosineSimilarity x y := by
  unfold cosineSimilarity
  exact div_nonneg h (le_of_lt (mul_pos (normFix_pos x) (normFix_pos y)))

/-! ## Characterization of the scorer's branches -/

theorem computeSimilarityScore_empty (corpus : String → Option (List String))
    (embed : String → Except String (List ℝ)) (jd cv lang : String)
    (h : pyStrip jd = "" ∨ pyStrip cv = "") :
    computeSimilarityScore corpus embed jd cv lang =
      (.error (.valueError "Job description and CV text cannot be empty."), []) := by
  unfold computeSimilarityScore
  rw [if_pos h]

theorem computeSimilarityScore_unsupported (corpus : String → Option (List String))
    (embed : String → Except String (List ℝ)) (jd cv lang : String)
    (h1 : ¬(pyStrip jd = "" ∨ pyStrip cv = ""))
    (h2 : isSupportedLanguage lang = false) :
    computeSimilarityScore corpus embed jd cv lang =
      (.error (.valueError ("Unsupported language: " ++ lang)), []) := by
  unfold computeSimilarityScore
  rw [if_neg h1, if_pos (by simp [h2])]

theorem computeSimilarityScore_embedFailFirst (corpus : String → Option (List String))
    (embed : String → Except String (List ℝ)) (jd cv lang : String) (e : String)
    (h1 : ¬(pyStrip jd = "" ∨ pyStrip cv = ""))
    (h2 : isSupportedLanguage lang = true)
    (h3 : embed (preprocess_text corpus jd lang) = .error e) :
    computeSimilarityScore corpus embed jd cv lang =
      (.error (.exception ("Error computing similarity score: " ++ e)),
       [preprocess_text corpus jd lang]) := by
  unfold computeSimilarityScore
  rw [if_neg h1, if_neg (by simp [h2])]
  simp only [h3]

theorem computeSimilarityScore_embedFailSecond (corpus : String → Option (List String))
    (embed : String → Except String (List ℝ)) (jd cv lang : String)
    (v : List ℝ) (e : String)
    (h1 : ¬(pyStrip jd = "" ∨ pyStrip cv = ""))
    (h2 : isSupportedLanguage lang = true)
    (h3 : embed (preprocess_text corpus jd lang) = .ok v)
    (h4 : embed (preprocess_text corpus cv lang) = .error e) :
    computeSimilarityScore corpus embed jd cv lang =
      (.error (.exception ("Error computing similarity score: " ++ e)),
       [preprocess_text corpus jd lang, preprocess_text corpus cv lang]) := by
  unfold computeSimilarityScore
  rw [if_neg h1, if_neg (by simp [h2])]
  simp only [h3, h4]

theorem computeSimilarityScore_ok (corpus : String → Option (List String))
    (embed : String → Except String (List ℝ)) (jd cv lang : String)
    (x y : List ℝ)
    (h1 : ¬(pyStrip jd = "" ∨ pyStrip cv = ""))
    (h2 : isSupportedLanguage lang = true)
    (h3 : embed (preprocess_text corpus jd lang) = .ok x)
    (h4 : embed (preprocess_text corpus cv lang) = .ok y) :
    computeSimilarityScore corpus embed jd cv lang =
      (.ok (cosineSimilarity x y),
       [preprocess_text corpus jd lang, preprocess_text corpus cv lang]) := by
  unfold computeSimilarityScore
  rw [if_neg h1, if_neg (by simp [h2])]
  simp only [h3, h4]

/-- Inversion: a successful score arises only past both validations, from
two successful embedding calls, as their cosine similarity. -/
theorem computeSimilarityScore_ok_inv (corpus : String → Option (List String))
    (embed : String → Except String (List ℝ)) (jd cv lang : String) (v : ℝ)
    (h : (computeSimilarityScore corpus embed jd cv lang).1 = .ok v) :
    ¬(pyStrip jd = "" ∨ pyStrip cv = "") ∧ isSupportedLanguage lang = true ∧
      ∃ x y, embed (preprocess_text corpus jd lang) = .ok x ∧
        embed (preprocess_text corpus cv lang) = .ok y ∧
        v = cosineSimilarity x y := by
  by_cases h1 : pyStrip jd = "" ∨ pyStrip cv = ""
  · rw [computeSimilarityScore_empty corpus embed jd cv lang h1] at h
    exact absurd h (by simp)
  · by_cases h2 : isSupportedLanguage lang = true
    · cases h3 : embed (preprocess_text corpus jd lang) with
      | error e =>
        rw [computeSimilarityScore_embedFailFirst corpus embed jd cv lang e h1 h2 h3] at h
        exact absurd h (by simp)
      | ok x =>
        cases h4 : embed (preprocess_text corpus cv lang) with
        | error e =>
          rw [computeSimilarityScore_embedFailSecond corpus embed jd cv lang x e
            h1 h2 h3 h4] at h
          exact absurd h (by simp)
        | ok y =>
          rw [computeSimilarityScore_ok corpus embed jd cv lang x y h1 h2 h3 h4] at h
          refine ⟨h1, h2, x, y, rfl, rfl, ?_⟩
          simpa using h.symm
    · rw [computeSimilarityScore_unsupported corpus embed jd cv lang h1
        (by simpa using h2)] at h
      exact absurd h (by simp)

/-! ## String and language-table facts -/

theorem unsupported_msg_ne_empty_msg (lang : String) :
    "Unsupported language: " ++ lang ≠
      "Job description and CV text cannot be empty." := by
  intro h
  have h2 := congrArg String.data h
  simp [String.data_append] at h2

theorem find_map_isSome (code : String) :
    ∀ l : List (String × String),
      ((l.find? (fun p => p.1 = code)).map (·.2)).isSome
        = l.any (fun p => p.1 = code) := by
  intro l
  induction l with
  | nil => rfl
  | cons a t ih =>
    by_cases h : a.1 = code
    · rw [List.find?_cons_of_pos _ (by simpa using h)]
      simp [h]
    · rw [List.find?_cons_of_neg _ (by simpa using h)]
      simp [h, ih]

theorem get_language_name_isSome (code : String) :
    (get_language_name code).isSome = isSupportedLanguage code :=
  find_map_isSome code SUPPORTED_LANGUAGES

/-- A successful or embedding-failed run for valid inputs: the result is
either a wrapped exception from an embedding call or a score. -/
theorem computeSimilarityScore_shapes (corpus : String → Option (List String))
    (embed : String → Except String (List ℝ)) (jd cv lang : String)
    (hne : ¬(pyStrip jd = "" ∨ pyStrip cv = ""))
    (h2 : isSupportedLanguage lang = true) :
    (∃ e, (computeSimilarityScore corpus embed jd cv lang).1
        = .error (.exception ("Error computing similarity score: " ++ e)))
    ∨ (∃ v, (computeSimilarityScore corpus embed jd cv lang).1 = .ok v) := by
  cases h3 : embed (preprocess_text corpus jd lang) with
  | error e =>
    exact Or.inl ⟨e, by
      rw [computeSimilarityScore_embedFailFirst corpus embed jd cv lang e hne h2 h3]⟩
  | ok x =>
    cases h4 : embed (preprocess_text corpus cv lang) with
    | error e =>
      exact Or.inl ⟨e, by
        rw [computeSimilarityScore_embedFailSecond corpus embed jd cv lang x e
          hne h2 h3 h4]⟩
    | ok y =>
      exact Or.inr ⟨cosineSimilarity x y, by
        rw [computeSimilarityScore_ok corpus embed jd cv lang x y hne h2 h3 h4]⟩

/-! ## Claims -/

/-- Claim C1: for every input text and language code, the cleaned text
produced by preprocessing equals the result of splitting the text on
whitespace into tokens, dropping exactly those tokens whose lowercased form
is in the language's stopword set, and rejoining the surviving tokens with
single spaces; moreover the token list of the cleaned text is exactly the
filtered token list of the input, so order and casing of retained tokens
are preserved. -/
theorem preprocess_text_follows_spec_recipe
    (corpus : String → Option (List String)) (text language : String) :
    preprocess_text corpus text language
        = specCleanedText (get_stopwords corpus language) text
    ∧ pySplit (preprocess_text corpus text language)
        = (pySplit text).filter
            (fun tok => decide (pyLower tok ∉ get_stopwords corpus language)) := by
  refine ⟨rfl, ?_⟩
  exact pySplit_pyJoin _
    (fun w hw => (pySplit_tokens text w (List.mem_of_mem_filter hw)).1)
    (fun w hw => (pySplit_tokens text w (List.mem_of_mem_filter hw)).2)

/-- Claim C2 counterexample: an embedding provider that returns the zero
vector on valid, supported-language inputs makes the scorer SUCCEED with
score `0.0` — it does not fail, with `DegenerateInput` or anything else. -/
theorem zero_norm_vector_scores_ok_zero :
    (computeSimilarityScore (fun _ => none) (fun _ => .ok [0]) "jd" "cv" "en").1
      = .ok 0 := by
  rw [computeSimilarityScore_ok (fun _ => none) (fun _ => .ok [0]) "jd" "cv" "en"
    [0] [0] (by decide) (by decide) rfl rfl]
  show Except.ok (cosineSimilarity [0] [0]) = Except.ok 0
  rw [cosineSimilarity_zero_left [0] [0] (by intro a ha; simpa using ha)]

/-- Claim C2 amended: for valid inputs where at least one embedding vector
is the zero vector, the scorer does not fail: it returns the score `0`
(sklearn's `cosine_similarity` replaces a zero row norm by `1` before
dividing), and the divisor is always nonzero, so no division by zero is
performed. -/
theorem zero_norm_vector_behaviour (corpus : String → Option (List String))
    (embed : String → Except String (List ℝ)) (jd cv lang : String) (x y : List ℝ)
    (h1 : ¬(pyStrip jd = "" ∨ pyStrip cv = ""))
    (h2 : isSupportedLanguage lang = true)
    (h3 : embed (preprocess_text corpus jd lang) = .ok x)
    (h4 : embed (preprocess_text corpus cv lang) = .ok y)
    (hz : norm2 x = 0 ∨ norm2 y = 0) :
    (computeSimilarityScore corpus embed jd cv lang).1 = .ok 0
    ∧ normFix (norm2 x) * normFix (norm2 y) ≠ 0 := by
  constructor
  · rw [computeSimilarityScore_ok corpus embed jd cv lang x y h1 h2 h3 h4]
    show Except.ok (cosineSimilarity x y) = Except.ok 0
    rcases hz with hz | hz
    · rw [cosineSimilarity_zero_left x y
        (dotL_self_eq_zero x ((norm2_eq_zero_iff x).mp hz))]
    · rw [cosineSimilarity_comm, cosineSimilarity_zero_left y x
        (dotL_self_eq_zero y ((norm2_eq_zero_iff y).mp hz))]
  · exact ne_of_gt (mul_pos (normFix_pos x) (normFix_pos y))

theorem zero_norm_vector_behaviour_witness :
    (computeSimilarityScore (fun _ => none) (fun _ => .ok [0, 0]) "x" "y" "de").1
      = .ok 0 :=
  (zero_norm_vector_behaviour (fun _ => none) (fun _ => .ok [0, 0]) "x" "y" "de"
    [0, 0] [0, 0] (by decide) (by decide) rfl rfl
    (Or.inl (by
      show Real.sqrt ((0 : ℝ) * 0 + (0 * 0 + 0)) = 0
      rw [show (0 : ℝ) * 0 + (0 * 0 + 0) = 0 by norm_num, Real.sqrt_zero]))).1

/-- Claim C3 counterexample: the `DegenerateInput` condition (a zero
embedding vector) is not reported to the caller as an error value at all —
it is silently converted to the similarity score `0.0`. -/
theorem degenerate_input_converted_to_score :
    (computeSimilarityScore (fun _ => none) (fun _ => .ok [0, 0, 0])
        "alpha" "beta" "tr").1 = .ok 0 := by
  rw [computeSimilarityScore_ok (fun _ => none) (fun _ => .ok [0, 0, 0])
    "alpha" "beta" "tr" [0, 0, 0] [0, 0, 0] (by decide) (by decide) rfl rfl]
  show Except.ok (cosineSimilarity [0, 0, 0] [0, 0, 0]) = Except.ok 0
  rw [cosineSimilarity_zero_left [0, 0, 0] [0, 0, 0] (by intro a ha; simpa using ha)]

/-- Claim C3 amended: the three failure conditions the code implements —
InvalidInput, UnsupportedLanguage (both `ValueError`s with distinct fixed
messages) and EmbeddingProviderError (a wrapped generic `Exception`) — are
reported to the immediate caller as pairwise distinguishable error values
and are never converted to a score; the fourth spec condition,
DegenerateInput, is not reported: a zero embedding vector silently yields
the score `0.0`. -/
theorem error_taxonomy (corpus : String → Option (List String))
    (embed : String → Except String (List ℝ)) (jd cv lang : String) :
    ((pyStrip jd = "" ∨ pyStrip cv = "") →
      (computeSimilarityScore corpus embed jd cv lang).1
        = .error (.valueError "Job description and CV text cannot be empty."))
    ∧ (¬(pyStrip jd = "" ∨ pyStrip cv = "") → isSupportedLanguage lang = false →
      (computeSimilarityScore corpus embed jd cv lang).1
          = .error (.valueError ("Unsupported language: " ++ lang))
        ∧ (PyError.valueError ("Unsupported language: " ++ lang)
            ≠ .valueError "Job description and CV text cannot be empty."))
    ∧ (∀ e, ¬(pyStrip jd = "" ∨ pyStrip cv = "") → isSupportedLanguage lang = true →
      embed (preprocess_text corpus jd lang) = .error e →
      (computeSimilarityScore corpus embed jd cv lang).1
          = .error (.exception ("Error computing similarity score: " ++ e))
        ∧ ∀ m, PyError.exception ("Error computing similarity score: " ++ e)
            ≠ .valueError m)
    ∧ (∀ x y, ¬(pyStrip jd = "" ∨ pyStrip cv = "") → isSupportedLanguage lang = true →
      embed (preprocess_text corpus jd lang) = .ok x →
      embed (preprocess_text corpus cv lang) = .ok y → norm2 x = 0 →
      (computeSimilarityScore corpus embed jd cv lang).1 = .ok 0) := by
  refine ⟨?_, ?_, ?_, ?_⟩
  · intro h
    rw [computeSimilarityScore_empty corpus embed jd cv lang h]
  · intro h1 h2
    refine ⟨?_, ?_⟩
    · rw [computeSimilarityScore_unsupported corpus embed jd cv lang h1 h2]
    · intro h
      exact unsupported_msg_ne_empty_msg lang (by injection h)
  · intro e h1 h2 h3
    refine ⟨?_, fun m h => by injection h⟩
    rw [computeSimilarityScore_embedFailFirst corpus embed jd cv lang e h1 h2 h3]
  · intro x y h1 h2 h3 h4 hz
    rw [computeSimilarityScore_ok corpus embed jd cv lang x y h1 h2 h3 h4]
    show Except.ok (cosineSimilarity x y) = Except.ok 0
    rw [cosineSimilarity_zero_left x y
      (dotL_self_eq_zero x ((norm2_eq_zero_iff x).mp hz))]

theorem error_taxonomy_witness :
    (computeSimilarityScore (fun _ => none) (fun _ => .ok [1]) " " "cv" "en").1
        = .error (.valueError "Job description and CV text cannot be empty.")
    ∧ (computeSimilarityScore (fun _ => none) (fun _ => .ok [1]) "jd" "cv" "zz").1
        = .error (.valueError ("Unsupported language: " ++ "zz"))
    ∧ (computeSimilarityScore (fun _ => none) (fun _ => .error "boom") "jd" "cv" "fr").1
        = .error (.exception ("Error computing similarity score: " ++ "boom")) :=
  ⟨(error_taxonomy (fun _ => none) (fun _ => .ok [1]) " " "cv" "en").1
      (Or.inl (by decide)),
   ((error_taxonomy (fun _ => none) (fun _ => .ok [1]) "jd" "cv" "zz").2.1
      (by decide) (by decide)).1,
   ((error_taxonomy (fun _ => none) (fun _ => .error "boom") "jd" "cv" "fr").2.2.1
      "boom" (by decide) (by decide) rfl).1⟩

/-- Claim C4 counterexample: for the unsupported code `"xx"` but a blank job
description, the scorer fails with the InvalidInput `ValueError`, not with
the UnsupportedLanguage one — the empty-text check runs first. -/
theorem unsupported_code_can_fail_invalid :
    (computeSimilarityScore (fun _ => none) (fun _ => .ok [1]) "" "cv" "xx").1
        = .error (.valueError "Job description and CV text cannot be empty.")
    ∧ "Job description and CV text cannot be empty." ≠ "Unsupported language: xx" := by
  constructor
  · rw [computeSimilarityScore_empty (fun _ => none) (fun _ => .ok [1]) "" "cv" "xx"
      (Or.inl (by decide))]
  · decide

/-- Claim C4 amended: for texts that are non-empty after trimming, every
language code outside {en, tr, de, fr, es, it, nl} makes the scorer fail
with the UnsupportedLanguage error and no embedding call is made (the call
trace is empty); for every code in the set, an unsupported-language failure
never occurs. -/
theorem unsupported_language_check (corpus : String → Option (List String))
    (embed : String → Except String (List ℝ)) (jd cv lang : String) :
    (pyStrip jd ≠ "" → pyStrip cv ≠ "" → isSupportedLanguage lang = false →
      computeSimilarityScore corpus embed jd cv lang
        = (.error (.valueError ("Unsupported language: " ++ lang)), []))
    ∧ (isSupportedLanguage lang = true →
      ∀ s, (computeSimilarityScore corpus embed jd cv lang).1
        ≠ .error (.valueError ("Unsupported language: " ++ s))) := by
  constructor
  · intro hjd hcv h2
    exact computeSimilarityScore_unsupported corpus embed jd cv lang
      (by tauto) h2
  · intro h2 s hcon
    by_cases h1 : pyStrip jd = "" ∨ pyStrip cv = ""
    · rw [computeSimilarityScore_empty corpus embed jd cv lang h1] at hcon
      have : "Job description and CV text cannot be empty."
          = "Unsupported language: " ++ s := by
        injection (by injection hcon : PyError.valueError _ = PyError.valueError _)
      exact unsupported_msg_ne_empty_msg s this.symm
    · rcases computeSimilarityScore_shapes corpus embed jd cv lang h1 h2 with
        ⟨e, he⟩ | ⟨v, hv⟩
      · rw [he] at hcon
        have := (by injection hcon : PyError.exception _ = PyError.valueError _)
        injection this
      · rw [hv] at hcon
        injection hcon

theorem unsupported_language_check_witness :
    computeSimilarityScore (fun _ => none) (fun _ => .ok [1]) "jd" "cv" "qq"
        = (.error (.valueError ("Unsupported language: " ++ "qq")), [])
    ∧ (computeSimilarityScore (fun _ => none) (fun _ => .ok [1]) "jd" "cv" "nl").1
        ≠ .error (.valueError ("Unsupported language: " ++ "nl")) :=
  ⟨(unsupported_language_check (fun _ => none) (fun _ => .ok [1]) "jd" "cv" "qq").1
      (by decide) (by decide) (by decide),
   (unsupported_language_check (fun _ => none) (fun _ => .ok [1]) "jd" "cv" "nl").2
      (by decide) "nl"⟩

/-- Claim C5: if the job description or the CV text is empty or
whitespace-only, the scorer fails with the InvalidInput error regardless of
the language code; for inputs non-empty after trimming this failure never
occurs. -/
theorem blank_input_check (corpus : String → Option (List String))
    (embed : String → Except String (List ℝ)) (jd cv lang : String) :
    ((pyStrip jd = "" ∨ pyStrip cv = "") →
      (computeSimilarityScore corpus embed jd cv lang).1
        = .error (.valueError "Job description and CV text cannot be empty."))
    ∧ (pyStrip jd ≠ "" → pyStrip cv ≠ "" →
      (computeSimilarityScore corpus embed jd cv lang).1
        ≠ .error (.valueError "Job description and CV text cannot be empty.")) := by
  constructor
  · intro h
    rw [computeSimilarityScore_empty corpus embed jd cv lang h]
  · intro hjd hcv hcon
    have h1 : ¬(pyStrip jd = "" ∨ pyStrip cv = "") := by tauto
    by_cases h2 : isSupportedLanguage lang = true
    · rcases computeSimilarityScore_shapes corpus embed jd cv lang h1 h2 with
        ⟨e, he⟩ | ⟨v, hv⟩
      · rw [he] at hcon
        have := (by injection hcon : PyError.exception _ = PyError.valueError _)
        injection this
      · rw [hv] at hcon
        injection hcon
    · rw [computeSimilarityScore_unsupported corpus embed jd cv lang h1
        (by simpa using h2)] at hcon
      have : "Unsupported language: " ++ lang
          = "Job description and CV text cannot be empty." := by
        injection (by injection hcon : PyError.valueError _ = PyError.valueError _)
      exact unsupported_msg_ne_empty_msg lang this

theorem blank_input_check_witness :
    (computeSimilarityScore (fun _ => none) (fun _ => .ok [1]) "jd" " \t " "xx").1
        = .error (.valueError "Job description and CV text cannot be empty.")
    ∧ (computeSimilarityScore (fun _ => none) (fun _ => .ok [1]) "jd" "cv" "xx").1
        ≠ .error (.valueError "Job description and CV text cannot be empty.") :=
  ⟨(blank_input_check (fun _ => none) (fun _ => .ok [1]) "jd" " \t " "xx").1
      (Or.inr (by decide)),
   (blank_input_check (fun _ => none) (fun _ => .ok [1]) "jd" "cv" "xx").2
      (by decide) (by decide)⟩

/-- Claim C6 counterexample: nothing in the scorer clamps or checks the sign
of the cosine: an embedding provider producing opposite vectors on valid,
supported-language inputs makes it return `-1.0`, outside `[0.0, 1.0]`. -/
theorem score_can_be_negative :
    (computeSimilarityScore (fun _ => none)
        (fun s => .ok (if s = "pos" then [1] else [-1])) "pos" "neg" "en").1
      = .ok (-1)
    ∧ ((-1 : ℝ) < 0) := by
  constructor
  · rw [computeSimilarityScore_ok (fun _ => none)
      (fun s => .ok (if s = "pos" then [1] else [-1])) "pos" "neg" "en"
      [1] [-1] (by decide) (by decide) (by rfl) (by rfl)]
    show Except.ok (cosineSimilarity [1] [-1]) = Except.ok (-1)
    have hd : dotL [(1 : ℝ)] [(-1 : ℝ)] = -1 := by
      show (1 : ℝ) * (-1) + 0 = -1
      norm_num
    have hx : norm2 [(1 : ℝ)] = 1 := by
      show Real.sqrt ((1 : ℝ) * 1 + 0) = 1
      rw [show (1 : ℝ) * 1 + 0 = 1 by norm_num, Real.sqrt_one]
    have hy : norm2 [(-1 : ℝ)] = 1 := by
      show Real.sqrt ((-1 : ℝ) * (-1) + 0) = 1
      rw [show (-1 : ℝ) * (-1) + 0 = 1 by norm_num, Real.sqrt_one]
    unfold cosineSimilarity normFix
    rw [hd, hx, hy, if_neg one_ne_zero]
    norm_num
  · norm_num

/-- Claim C6 amended: every successfully returned score lies in the closed
interval `[-1.0, 1.0]`; it lies in `[0.0, 1.0]` whenever the two embedding
vectors have non-negative dot product (the property the spec attributes to
the embedding family, which the code itself does not enforce). -/
theorem score_bounds (corpus : String → Option (List String))
    (embed : String → Except String (List ℝ)) (jd cv lang : String) (v : ℝ)
    (h : (computeSimilarityScore corpus embed jd cv lang).1 = .ok v) :
    -1 ≤ v ∧ v ≤ 1
    ∧ (∀ x y, embed (preprocess_text corpus jd lang) = .ok x →
        embed (preprocess_text corpus cv lang) = .ok y →
        0 ≤ dotL x y → 0 ≤ v) := by
  obtain ⟨h1, h2, x, y, h3, h4, rfl⟩ :=
    computeSimilarityScore_ok_inv corpus embed jd cv lang v h
  have hb := abs_cosineSimilarity_le_one x y
  rw [abs_le] at hb
  refine ⟨hb.1, hb.2, ?_⟩
  intro x' y' h3' h4' hd
  have hx : x = x' := by injection h3.symm.trans h3'
  have hy : y = y' := by injection h4.symm.trans h4'
  subst hx; subst hy
  exact cosineSimilarity_nonneg _ _ hd

theorem score_bounds_witness :
    -1 ≤ cosineSimilarity [(3 : ℝ), 4] [(3 : ℝ), 4]
    ∧ cosineSimilarity [(3 : ℝ), 4] [(3 : ℝ), 4] ≤ 1
    ∧ 0 ≤ cosineSimilarity [(3 : ℝ), 4] [(3 : ℝ), 4] := by
  have h := score_bounds (fun _ => none) (fun _ => .ok [3, 4]) "jd" "cv" "en"
    (cosineSimilarity [3, 4] [3, 4])
    (by rw [computeSimilarityScore_ok (fun _ => none) (fun _ => .ok [3, 4])
          "jd" "cv" "en" [3, 4] [3, 4] (by decide) (by decide) rfl rfl])
  refine ⟨h.1, h.2.1, h.2.2 [3, 4] [3, 4] rfl rfl ?_⟩
  show (0 : ℝ) ≤ 3 * 3 + (4 * 4 + 0)
  norm_num

/-- Claim C7: the similarity score is symmetric — whenever
`compute_similarity_score(a, b, lang)` succeeds with a value, swapping the
two texts succeeds with the same value. -/
theorem computeSimilarityScore_symm (corpus : String → Option (List String))
    (embed : String → Except String (List ℝ)) (a b lang : String) (v : ℝ)
    (h : (computeSimilarityScore corpus embed a b lang).1 = .ok v) :
    (computeSimilarityScore corpus embed b a lang).1 = .ok v := by
  obtain ⟨h1, h2, x, y, h3, h4, rfl⟩ :=
    computeSimilarityScore_ok_inv corpus embed a b lang v h
  have h1' : ¬(pyStrip b = "" ∨ pyStrip a = "") := by tauto
  rw [computeSimilarityScore_ok corpus embed b a lang y x h1' h2 h4 h3]
  show Except.ok (cosineSimilarity y x) = Except.ok (cosineSimilarity x y)
  rw [cosineSimilarity_comm]

theorem computeSimilarityScore_symm_witness :
    (computeSimilarityScore (fun _ => none) (fun _ => .ok [1]) "b" "a" "en").1
      = .ok (cosineSimilarity [1] [1]) :=
  computeSimilarityScore_symm (fun _ => none) (fun _ => .ok [1]) "a" "b" "en"
    (cosineSimilarity [1] [1])
    (by rw [computeSimilarityScore_ok (fun _ => none) (fun _ => .ok [1])
          "a" "b" "en" [1] [1] (by decide) (by decide) rfl rfl])

/-- Claim C8: the stopword lookup is total and never fails the request: when
the corpus has a list for the language it returns exactly that list, and
otherwise it returns the empty set. -/
theorem get_stopwords_total (corpus : String → Option (List String))
    (language : String) :
    (∀ ws, corpus language = some ws → get_stopwords corpus language = ws)
    ∧ (corpus language = none → get_stopwords corpus language = []) := by
  constructor
  · intro ws h
    unfold get_stopwords
    rw [h]
  · intro h
    unfold get_stopwords
    rw [h]

theorem get_stopwords_total_witness :
    get_stopwords (fun l => if l = "english" then some ["the", "a"] else none)
        "english" = ["the", "a"]
    ∧ get_stopwords (fun l => if l = "english" then some ["the", "a"] else none)
        "en" = [] :=
  ⟨(get_stopwords_total (fun l => if l = "english" then some ["the", "a"] else none)
      "english").1 ["the", "a"] rfl,
   (get_stopwords_total (fun l => if l = "english" then some ["the", "a"] else none)
      "en").2 rfl⟩

/-- Claim C9: the scorer is deterministic — extensionally equal (hence
deterministic) embedding providers give identical results on identical
inputs — and its only side effects are the embedding calls: the call trace
is empty, or the cleaned job description alone (first call failed), or the
two cleaned texts in order.  Inputs are immutable values of the model. -/
theorem deterministic_and_effects (corpus : String → Option (List String))
    (embed1 embed2 : String → Except String (List ℝ)) (jd cv lang : String)
    (hdet : ∀ s, embed1 s = embed2 s) :
    computeSimilarityScore corpus embed1 jd cv lang
        = computeSimilarityScore corpus embed2 jd cv lang
    ∧ ((computeSimilarityScore corpus embed1 jd cv lang).2 = []
      ∨ (computeSimilarityScore corpus embed1 jd cv lang).2
          = [preprocess_text corpus jd lang]
      ∨ (computeSimilarityScore corpus embed1 jd cv lang).2
          = [preprocess_text corpus jd lang, preprocess_text corpus cv lang]) := by
  have he : embed1 = embed2 := funext hdet
  subst he
  refine ⟨rfl, ?_⟩
  by_cases h1 : pyStrip jd = "" ∨ pyStrip cv = ""
  · rw [computeSimilarityScore_empty corpus embed1 jd cv lang h1]
    exact Or.inl rfl
  · by_cases h2 : isSupportedLanguage lang = true
    · cases h3 : embed1 (preprocess_text corpus jd lang) with
      | error e =>
        rw [computeSimilarityScore_embedFailFirst corpus embed1 jd cv lang e h1 h2 h3]
        exact Or.inr (Or.inl rfl)
      | ok x =>
        cases h4 : embed1 (preprocess_text corpus cv lang) with
        | error e =>
          rw [computeSimilarityScore_embedFailSecond corpus embed1 jd cv lang x e
            h1 h2 h3 h4]
          exact Or.inr (Or.inr rfl)
        | ok y =>
          rw [computeSimilarityScore_ok corpus embed1 jd cv lang x y h1 h2 h3 h4]
          exact Or.inr (Or.inr rfl)
    · rw [computeSimilarityScore_unsupported corpus embed1 jd cv lang h1
        (by simpa using h2)]
      exact Or.inl rfl

theorem deterministic_and_effects_witness :
    computeSimilarityScore (fun _ => none) (fun _ => .ok [2]) "jd" "cv" "en"
      = computeSimilarityScore (fun _ => none) (fun _ => .ok [1 + 1]) "jd" "cv" "en" :=
  (deterministic_and_effects (fun _ => none) (fun _ => .ok [2])
    (fun _ => .ok [1 + 1]) "jd" "cv" "en" (fun _ => by norm_num)).1

/-! ## Reduction lemmas for the endpoint -/

theorem endpoint_noFile (corpus : String → Option (List String))
    (embed : String → Except String (List ℝ))
    (openaiEval : String → String → String → Except String String)
    (fjd : Option String) (fl : Option String) (ext : Except String String) :
    evaluate_cv_match_endpoint corpus embed openaiEval fjd fl none ext
      = .badRequestMissing := rfl

theorem endpoint_noJobDescription (corpus : String → Option (List String))
    (embed : String → Except String (List ℝ))
    (openaiEval : String → String → String → Except String String)
    (fl : Option String) (ext : Except String String) :
    evaluate_cv_match_endpoint corpus embed openaiEval none fl (some ()) ext
      = .badRequestMissing := rfl

theorem endpoint_extractFail (corpus : String → Option (List String))
    (embed : String → Except String (List ℝ))
    (openaiEval : String → String → String → Except String String)
    (jd : String) (fl : Option String) (e : String) :
    evaluate_cv_match_endpoint corpus embed openaiEval (some jd) fl (some ())
        (.error e)
      = if jd = "" then .badRequestMissing else .internalError := rfl

theorem endpoint_reduce (corpus : String → Option (List String))
    (embed : String → Except String (List ℝ))
    (openaiEval : String → String → String → Except String String)
    (jd : String) (fl : Option String) (cvt : String) :
    evaluate_cv_match_endpoint corpus embed openaiEval (some jd) fl (some ())
        (.ok cvt)
      = if jd = "" then .badRequestMissing
        else
          match (computeSimilarityScore corpus embed jd cvt
              (pyLower (fl.getD "en"))).1 with
          | .error _ => .internalError
          | .ok similarity_score =>
            match get_language_name (pyLower (fl.getD "en")) with
            | none => .badRequestUnsupported
            | some language_name =>
              match openaiEval jd cvt language_name with
              | .error _ => .internalError
              | .ok evaluation => .okMatch (pyRound2 similarity_score) evaluation := rfl

/-- Claim C10: the `/evaluate_cv_match` handler computes the similarity score
before validating the language code, so for a request that reaches the
computation (CV file present, job description non-empty, text extracted)
with an unsupported (lowercased) language code, `compute_similarity_score`
raises first and the handler returns the generic 500 internal-server-error
response; the handler's dedicated 400 unsupported-language branch is
unreachable — no request whatsoever produces that response. -/
theorem endpoint_unsupported_is_500 (corpus : String → Option (List String))
    (embed : String → Except String (List ℝ))
    (openaiEval : String → String → String → Except String String)
    (jd : String) (formLanguage : Option String) (cvt : String) :
    (jd ≠ "" → isSupportedLanguage (pyLower (formLanguage.getD "en")) = false →
      evaluate_cv_match_endpoint corpus embed openaiEval (some jd) formLanguage
        (some ()) (.ok cvt) = .internalError)
    ∧ (∀ fjd fl cvf ext,
      evaluate_cv_match_endpoint corpus embed openaiEval fjd fl cvf ext
        ≠ .badRequestUnsupported) := by
  constructor
  · intro hjd hunsup
    rw [endpoint_reduce, if_neg hjd]
    obtain ⟨pe, hpe⟩ : ∃ pe, (computeSimilarityScore corpus embed jd cvt
        (pyLower (formLanguage.getD "en"))).1 = .error pe := by
      by_cases h1 : pyStrip jd = "" ∨ pyStrip cvt = ""
      · exact ⟨_, by rw [computeSimilarityScore_empty _ _ _ _ _ h1]⟩
      · exact ⟨_, by rw [computeSimilarityScore_unsupported _ _ _ _ _ h1 hunsup]⟩
    rw [hpe]
  · intro fjd fl cvf ext hcon
    cases cvf with
    | none =>
      rw [endpoint_noFile] at hcon
      exact HttpResponse.noConfusion hcon
    | some u =>
      cases u
      cases fjd with
      | none =>
        rw [endpoint_noJobDescription] at hcon
        exact HttpResponse.noConfusion hcon
      | some jd2 =>
        by_cases hjd : jd2 = ""
        · cases ext with
          | error e =>
            rw [endpoint_extractFail, if_pos hjd] at hcon
            exact HttpResponse.noConfusion hcon
          | ok cvt2 =>
            rw [endpoint_reduce, if_pos hjd] at hcon
            exact HttpResponse.noConfusion hcon
        · cases ext with
          | error e =>
            rw [endpoint_extractFail, if_neg hjd] at hcon
            exact HttpResponse.noConfusion hcon
          | ok cvt2 =>
            rw [endpoint_reduce, if_neg hjd] at hcon
            cases hc : (computeSimilarityScore corpus embed jd2 cvt2
                (pyLower (fl.getD "en"))).1 with
            | error pe =>
              rw [hc] at hcon
              exact HttpResponse.noConfusion hcon
            | ok s =>
              rw [hc] at hcon
              obtain ⟨-, hsup, -⟩ :=
                computeSimilarityScore_ok_inv corpus embed jd2 cvt2
                  (pyLower (fl.getD "en")) s hc
              have hsome : (get_language_name (pyLower (fl.getD "en"))).isSome
                  = true := by
                rw [get_language_name_isSome]
                exact hsup
              cases hg : get_language_name (pyLower (fl.getD "en")) with
              | none =>
                rw [hg] at hsome
                exact Bool.noConfusion hsome
              | some nm =>
                rw [hg] at hcon
                have hcon2 : (match openaiEval jd2 cvt2 nm with
                    | Except.error _ => HttpResponse.internalError
                    | Except.ok evaluation =>
                        HttpResponse.okMatch (pyRound2 s) evaluation)
                    = HttpResponse.badRequestUnsupported := hcon
                cases ho : openaiEval jd2 cvt2 nm with
                | error e =>
                  rw [ho] at hcon2
                  exact HttpResponse.noConfusion hcon2
                | ok ev =>
                  rw [ho] at hcon2
                  exact HttpResponse.noConfusion hcon2

theorem endpoint_unsupported_is_500_witness :
    evaluate_cv_match_endpoint (fun _ => none) (fun _ => .ok [1])
        (fun _ _ _ => .ok "report") (some "jd") (some "XX") (some ()) (.ok "cv")
      = .internalError :=
  (endpoint_unsupported_is_500 (fun _ => none) (fun _ => .ok [1])
    (fun _ _ _ => .ok "report") "jd" (some "XX") "cv").1
    (by decide) (by decide)

end CvMatcher
